import Mathlib

/-!
Verification development for the TickGen digital-ticketing application.

The definitions below are a shallow embedding of the application's core:

* the redemption validator `validateTicket` of
  `src/components/TicketScanner.tsx` together with the ticket store it
  manipulates (the `tickets` table of the Supabase migration, modelled as a
  list of rows; the unconditional `update ... eq('id', ...)` becomes
  `markTicketUsed`);
* the scan-history logger `addToHistory` of the same component;
* the code generator `generateUniqueCode` and the layout engine
  `createTicketElement` of `src/lib/ticketGenerator.ts`;
* the batch generation loop `generateTickets` of the generator component;
* the camera-acquisition cascade `requestCameraStream` and the session entry
  point `startScanning` of `src/lib/qrScanner.ts`.

Timestamps (`Date.now()`, `new Date().toISOString()`) are modelled as natural
numbers supplied by the caller; the random suffix of `Math.random()` and the
browser environment (permission state, `getUserMedia` responses, `play()`
results) are explicit parameters, so every function is pure and executable.
-/

namespace TickGen

/-- A row of the `tickets` table (migration `create_tickets_system.sql`):
`id uuid`, `event_id uuid`, `qr_code text unique`, `ticket_number integer`,
`is_used boolean default false`, `used_at timestamptz` (nullable).  Ids are
modelled as naturals and timestamps as naturals. -/
structure Ticket where
  id : Nat
  event_id : Nat
  qr_code : String
  ticket_number : Nat
  is_used : Bool
  used_at : Option Nat
deriving DecidableEq, Repr

/-- The lookup `supabase.from('tickets').select(...).eq('qr_code', code)
.maybeSingle()` in `validateTicket`: the first (by the unique index, the only)
row whose `qr_code` equals `code`, or `none`. -/
def findTicketByCode (ts : List Ticket) (code : String) : Option Ticket :=
  ts.find? (fun t => t.qr_code == code)

/-- The store update performed by `validateTicket`:
`update({ is_used: true, used_at: now }).eq('id', tid)` — every row whose `id`
matches is overwritten, with no condition on its current `is_used` and no
affected-row count returned to the caller. -/
def markTicketUsed (ts : List Ticket) (tid : Nat) (now : Nat) : List Ticket :=
  ts.map (fun t => if t.id == tid then { t with is_used := true, used_at := some now } else t)

/-- The tri-state result of one validation, as surfaced by
`validateTicket` (`result.type` error / warning / success together with the
ticket object read by the lookup). -/
inductive Outcome where
  | invalid
  | alreadyUsed (ticket : Ticket)
  | redeemed (ticket : Ticket)
deriving DecidableEq, Repr

/-- The decision core of `validateTicket` in `TicketScanner.tsx`
(lines 164–281): look the code up; not found ⇒ invalid with no mutation;
found used ⇒ already-used with no mutation; found unused ⇒ redeem by the
unconditional id-keyed update.  `now` is the timestamp
`new Date().toISOString()` taken at the update. -/
def validateTicket (ts : List Ticket) (code : String) (now : Nat) : Outcome × List Ticket :=
  match findTicketByCode ts code with
  | none => (Outcome.invalid, ts)
  | some t =>
    if t.is_used then (Outcome.alreadyUsed t, ts)
    else (Outcome.redeemed t, markTicketUsed ts t.id now)

/-- Repeated validations of the same code at successive timestamps,
collecting the outcomes. -/
def validateSeq (ts : List Ticket) (code : String) : List Nat → List Outcome × List Ticket
  | [] => ([], ts)
  | n :: rest =>
    let r := validateTicket ts code n
    let rr := validateSeq r.2 code rest
    (r.1 :: rr.1, rr.2)

section FindLemmas

variable {α : Type} {p : α → Bool}

/-- A successful `find?` splits the list at the first hit. -/
theorem find?_split {l : List α} {a : α} (h : l.find? p = some a) :
    ∃ pre post, l = pre ++ a :: post ∧ (∀ b ∈ pre, p b = false) ∧ p a = true := by
  induction l with
  | nil => simp [List.find?] at h
  | cons x xs ih =>
    rw [List.find?] at h
    by_cases hx : p x = true
    · rw [hx] at h
      simp only [Option.some.injEq] at h
      exact ⟨[], xs, by simp [← h], by simp, h ▸ hx⟩
    · rw [Bool.not_eq_true] at hx
      rw [hx] at h
      obtain ⟨pre, post, hl, hpre, hpa⟩ := ih h
      exact ⟨x :: pre, post, by simp [hl], by
        intro b hb
        rcases List.mem_cons.mp hb with hb | hb
        · exact hb ▸ hx
        · exact hpre b hb, hpa⟩

/-- Running `find?` over a prefix of misses locates the distinguished element. -/
theorem find?_append_cons {pre post : List α} {a : α}
    (hpre : ∀ b ∈ pre, p b = false) (ha : p a = true) :
    (pre ++ a :: post).find? p = some a := by
  induction pre with
  | nil => simp [List.find?, ha]
  | cons x xs ih =>
    have hx : p x = false := hpre x (by simp)
    simp only [List.cons_append, List.find?, hx]
    exact ih (fun b hb => hpre b (List.mem_cons_of_mem x hb))

end FindLemmas

/-- A validation preserves the number of store rows. -/
theorem validateTicket_length (ts : List Ticket) (code : String) (now : Nat) :
    (validateTicket ts code now).2.length = ts.length := by
  unfold validateTicket
  cases h : findTicketByCode ts code with
  | none => rfl
  | some t =>
    by_cases hu : t.is_used = true
    · simp [hu]
    · simp [hu, markTicketUsed]

/-- Rows whose id differs from the update key are untouched by
`markTicketUsed`. -/
theorem markTicketUsed_map_id {l : List Ticket} {tid : Nat}
    (h : ∀ u ∈ l, u.id ≠ tid) (now : Nat) :
    l.map (fun u => if u.id == tid then { u with is_used := true, used_at := some now } else u) = l := by
  induction l with
  | nil => rfl
  | cons x xs ih =>
    have hx : (x.id == tid) = false := by simp [h x (by simp)]
    have hxs := ih (fun u hu => h u (by simp [hu]))
    rw [List.map_cons, hxs, hx]
    simp

/-- A validation never turns a row's `is_used` from true back to false. -/
theorem validateTicket_is_used_mono (ts : List Ticket) (c : String) (n i : Nat)
    (hi : i < ts.length) (hi' : i < (validateTicket ts c n).2.length)
    (hused : (ts[i]).is_used = true) :
    (((validateTicket ts c n).2)[i]).is_used = true := by
  cases hf : findTicketByCode ts c with
  | none =>
    have hv : (validateTicket ts c n).2 = ts := by
      unfold validateTicket; rw [hf]
    simp only [hv]
    exact hused
  | some u =>
    by_cases hu : u.is_used = true
    · have hv : (validateTicket ts c n).2 = ts := by
        unfold validateTicket; rw [hf]; simp [hu]
      simp only [hv]
      exact hused
    · have hv : (validateTicket ts c n).2 = markTicketUsed ts u.id n := by
        unfold validateTicket; rw [hf]; simp [hu]
      simp only [hv, markTicketUsed, List.getElem_map]
      split
      · rfl
      · exact hused

/--
Claim C1.  If the store holds a ticket for `code` that is not yet used (with
pairwise-distinct row ids, as the primary key guarantees), then:
the first `validateTicket` call returns the redeemed outcome; the store after
it differs from the old store in exactly the one row of that ticket, which now
has `is_used = true` and `used_at` equal to the redemption time `t1`; every
subsequent call with the same code returns the already-used outcome carrying
that same `used_at = t1` and leaves the store untouched; and (for every store,
code and time) a validation never turns any row's `is_used` from true back to
false.
-/
theorem validateTicket_single_use
    (ts : List Ticket) (code : String) (t : Ticket) (t1 : Nat)
    (hfind : findTicketByCode ts code = some t)
    (hunused : t.is_used = false)
    (hids : (ts.map Ticket.id).Nodup) :
    (validateTicket ts code t1).1 = Outcome.redeemed t ∧
    (∃ pre post, ts = pre ++ t :: post ∧
      (validateTicket ts code t1).2 =
        pre ++ ({ t with is_used := true, used_at := some t1 } : Ticket) :: post) ∧
    (∀ times : List Nat,
      validateSeq (validateTicket ts code t1).2 code times =
        (times.map (fun _ => Outcome.alreadyUsed { t with is_used := true, used_at := some t1 }),
         (validateTicket ts code t1).2)) ∧
    (∀ (ts' : List Ticket) (c' : String) (n' i : Nat)
      (hi : i < ts'.length) (hi' : i < (validateTicket ts' c' n').2.length),
      (ts'[i]).is_used = true → (((validateTicket ts' c' n').2)[i]).is_used = true) := by
  obtain ⟨pre, post, hts, hpre, hqr⟩ := find?_split hfind
  have hval : validateTicket ts code t1 = (Outcome.redeemed t, markTicketUsed ts t.id t1) := by
    unfold validateTicket
    rw [hfind]
    simp [hunused]
  -- ids of rows other than `t` differ from `t.id`
  have hnd : ((pre ++ t :: post).map Ticket.id).Nodup := by rw [← hts]; exact hids
  rw [List.map_append, List.map_cons, List.nodup_append] at hnd
  obtain ⟨-, hndr, hdisj⟩ := hnd
  have hpre_ne : ∀ u ∈ pre, u.id ≠ t.id := by
    intro u hu
    exact fun he => hdisj (List.mem_map_of_mem Ticket.id hu) (by simp [he])
  have hpost_ne : ∀ u ∈ post, u.id ≠ t.id := by
    intro u hu he
    exact (List.nodup_cons.mp hndr).1 (he ▸ List.mem_map_of_mem Ticket.id hu)
  have hmark : markTicketUsed ts t.id t1 =
      pre ++ ({ t with is_used := true, used_at := some t1 } : Ticket) :: post := by
    rw [hts]
    unfold markTicketUsed
    rw [List.map_append, List.map_cons,
      markTicketUsed_map_id hpre_ne, markTicketUsed_map_id hpost_ne]
    simp
  have hfind' : findTicketByCode (markTicketUsed ts t.id t1) code =
      some ({ t with is_used := true, used_at := some t1 } : Ticket) := by
    rw [hmark]
    exact find?_append_cons hpre hqr
  have hval' : ∀ n, validateTicket (markTicketUsed ts t.id t1) code n =
      (Outcome.alreadyUsed { t with is_used := true, used_at := some t1 },
       markTicketUsed ts t.id t1) := by
    intro n
    unfold validateTicket
    rw [hfind']
    simp
  refine ⟨by rw [hval], ⟨pre, post, hts, by rw [hval, hmark]⟩, ?_, ?_⟩
  · intro times
    rw [hval]
    induction times with
    | nil => rfl
    | cons n rest ih => simp [validateSeq, hval' n, ih]
  · intro ts' c' n' i hi hi' hused
    exact validateTicket_is_used_mono ts' c' n' i hi hi' hused

/-- Concrete one-row store for the witnesses below. -/
def demoTicket : Ticket :=
  { id := 1, event_id := 7, qr_code := "TICKET-1700000000000-abc123", ticket_number := 1,
    is_used := false, used_at := none }

/-- Witness for `validateTicket_single_use`: on a concrete store holding one
unused ticket, the first validation redeems it and the second returns
already-used carrying the first redemption time. -/
theorem validateTicket_single_use_witness :
    (validateTicket [demoTicket] "TICKET-1700000000000-abc123" 100).1 =
      Outcome.redeemed demoTicket ∧
    (validateSeq (validateTicket [demoTicket] "TICKET-1700000000000-abc123" 100).2
        "TICKET-1700000000000-abc123" [200, 300]).1 =
      [Outcome.alreadyUsed { demoTicket with is_used := true, used_at := some 100 },
       Outcome.alreadyUsed { demoTicket with is_used := true, used_at := some 100 }] := by
  have h := validateTicket_single_use [demoTicket] "TICKET-1700000000000-abc123" demoTicket 100
    (by decide) (by decide) (by decide)
  refine ⟨h.1, ?_⟩
  rw [h.2.2.1 [200, 300]]
  rfl

/--
Claim C3.  Validating a code that matches no row returns the invalid outcome
and leaves the store exactly as it was (no row created or modified); the
embedding is a total function, mirroring that `validateTicket` catches every
store error and never throws to its caller.
-/
theorem validateTicket_not_found (ts : List Ticket) (code : String) (now : Nat)
    (h : findTicketByCode ts code = none) :
    validateTicket ts code now = (Outcome.invalid, ts) := by
  unfold validateTicket
  rw [h]

/-- Witness for `validateTicket_not_found`: an unknown code against the
concrete one-row store is rejected without touching the store. -/
theorem validateTicket_not_found_witness :
    validateTicket [demoTicket] "GHOST-CODE" 5 = (Outcome.invalid, [demoTicket]) :=
  validateTicket_not_found [demoTicket] "GHOST-CODE" 5 (by decide)

/-- A concrete already-used row, for the redemption-update counterexample. -/
def usedDemoTicket : Ticket :=
  { id := 1, event_id := 7, qr_code := "TICKET-X", ticket_number := 1,
    is_used := true, used_at := some 5 }

/-- Counterexample to claim C2: applying the id-keyed update of
`validateTicket` to a row that is already used is not a no-op — it overwrites
`used_at` (here from 5 to 99), because the update carries no
`is_used = false` condition. -/
theorem markTicketUsed_not_noop_on_used_row :
    markTicketUsed [usedDemoTicket] 1 99 ≠ [usedDemoTicket] := by decide

/--
Claim C2, amended.  The update that marks a ticket used is keyed only by the
ticket id and is unconditional on `is_used`: it rewrites `is_used := true` and
`used_at := now` for every row whose id matches — including rows that are
already used — and leaves every other row unchanged; no affected-row count is
produced or checked by the caller, whose only guard is the preceding read.
-/
theorem markTicketUsed_unconditional (ts : List Ticket) (tid now : Nat) :
    (markTicketUsed ts tid now).length = ts.length ∧
    ∀ i (hi : i < ts.length) (hi' : i < (markTicketUsed ts tid now).length),
      (markTicketUsed ts tid now)[i] =
        if (ts[i]).id = tid
        then { ts[i] with is_used := true, used_at := some now } else ts[i] := by
  refine ⟨by simp [markTicketUsed], ?_⟩
  intro i hi hi'
  simp only [markTicketUsed, List.getElem_map]
  by_cases h : (ts[i]).id = tid
  · simp [h]
  · simp [h]

/-- Witness for `markTicketUsed_unconditional` at a concrete store and index:
the update overwrites the already-used row 0. -/
theorem markTicketUsed_unconditional_witness :
    (markTicketUsed [usedDemoTicket] 1 99).get ⟨0, by decide⟩ =
      { usedDemoTicket with is_used := true, used_at := some 99 } := by
  have h := (markTicketUsed_unconditional [usedDemoTicket] 1 99).2 0 (by decide) (by decide)
  exact h.trans (by decide)

/-- Status tag of a scan-history entry in `TicketScanner.tsx`. -/
inductive ScanStatus where
  | success
  | warning
  | error
deriving DecidableEq, Repr

/-- An entry of the in-memory scan history (`ScanHistory` interface):
`id` is `Date.now().toString()`, `timestamp` the scan time. -/
structure HistoryItem where
  id : String
  ticketNumber : Nat
  eventName : String
  timestamp : Nat
  status : ScanStatus
  qrCode : String
deriving DecidableEq, Repr

/-- The `addToHistory` helper of `TicketScanner.tsx` (lines 122–133): a `null`
ticket returns immediately without logging; otherwise the new entry is
prepended and the list truncated to the 20 most recent entries.  The joined
event name accompanies the ticket. -/
def addToHistory (prev : List HistoryItem) (ticket : Option (Ticket × String))
    (status : ScanStatus) (qrCode : String) (now : Nat) : List HistoryItem :=
  match ticket with
  | none => prev
  | some (t, evName) =>
    ({ id := Nat.repr now, ticketNumber := t.ticket_number, eventName := evName,
       timestamp := now, status := status, qrCode := qrCode } :: prev).take 20

/-- The validator together with the history logging its branches perform:
not found logs with a `null` ticket and status error; already used logs the
ticket with status warning; a fresh redemption logs it with status success.
`evName` models the `events(name)` join. -/
def validateTicketWithHistory (ts : List Ticket) (evName : Nat → String)
    (hist : List HistoryItem) (code : String) (now : Nat) :
    Outcome × List Ticket × List HistoryItem :=
  match findTicketByCode ts code with
  | none => (Outcome.invalid, ts, addToHistory hist none ScanStatus.error code now)
  | some t =>
    if t.is_used then
      (Outcome.alreadyUsed t, ts,
       addToHistory hist (some (t, evName t.event_id)) ScanStatus.warning code now)
    else
      (Outcome.redeemed t, markTicketUsed ts t.id now,
       addToHistory hist (some (t, evName t.event_id)) ScanStatus.success code now)

/-- Claim C9, the code at the failing input: a validation that ends not-found
appends nothing to the scan history — `addToHistory` is invoked with a `null`
ticket and returns the history unchanged — contradicting the claim that
not-found scans are logged. -/
theorem notFound_scan_not_logged :
    (validateTicketWithHistory [] (fun _ => "Romeo y Julieta") [] "GHOST-CODE" 0).2.2 = [] ∧
    (validateTicketWithHistory [] (fun _ => "Romeo y Julieta") [] "GHOST-CODE" 0).1 =
      Outcome.invalid := by
  exact ⟨rfl, rfl⟩

section ReprLemmas

/-- The core digit renderer only prepends to its accumulator. -/
theorem toDigitsCore_append (fuel n : Nat) (ds : List Char) :
    Nat.toDigitsCore 10 fuel n ds = Nat.toDigitsCore 10 fuel n [] ++ ds := by
  induction fuel generalizing n ds with
  | zero => rfl
  | succ fuel ih =>
    simp only [Nat.toDigitsCore]
    by_cases h : n / 10 = 0
    · simp [h]
    · rw [if_neg h, if_neg h, ih (n / 10) (Nat.digitChar (n % 10) :: ds),
        ih (n / 10) [Nat.digitChar (n % 10)]]
      simp

/-- Base-10 digit characters are never a dash. -/
theorem digitChar_mod_ne_dash (n : Nat) : Nat.digitChar (n % 10) ≠ '-' := by
  have h : n % 10 < 10 := Nat.mod_lt _ (by decide)
  set m := n % 10 with hm
  interval_cases m <;> decide

/-- The decimal rendering of a natural number contains no dash. -/
theorem toDigitsCore_no_dash (fuel : Nat) : ∀ n, '-' ∉ Nat.toDigitsCore 10 fuel n [] := by
  induction fuel with
  | zero => intro n; simp [Nat.toDigitsCore]
  | succ fuel ih =>
    intro n
    simp only [Nat.toDigitsCore]
    by_cases h : n / 10 = 0
    · simp only [h, if_true, List.mem_singleton]
      exact fun he => digitChar_mod_ne_dash n he.symm
    · rw [if_neg h, toDigitsCore_append]
      intro hmem
      rcases List.mem_append.mp hmem with hmem | hmem
      · exact ih (n / 10) hmem
      · exact digitChar_mod_ne_dash n (List.mem_singleton.mp hmem).symm

/-- The decimal rendering of a natural number contains no dash. -/
theorem repr_no_dash (n : Nat) : '-' ∉ (Nat.repr n).data := by
  simpa [Nat.repr, Nat.toDigits, List.asString] using toDigitsCore_no_dash (n + 1) n

/-- Numeric value of a digit character. -/
def digitVal (c : Char) : Nat := c.toNat - 48

/-- Value of a big-endian digit string. -/
def digitsVal (l : List Char) : Nat := l.foldl (fun a c => 10 * a + digitVal c) 0

theorem digitsVal_append_singleton (l : List Char) (c : Char) :
    digitsVal (l ++ [c]) = 10 * digitsVal l + digitVal c := by
  simp [digitsVal, List.foldl_append]

theorem digitVal_digitChar (n : Nat) (h : n < 10) : digitVal (Nat.digitChar n) = n := by
  interval_cases n <;> decide

/-- With enough fuel, `toDigitsCore` renders exactly the base-10 digits. -/
theorem toDigitsCore_val (fuel : Nat) : ∀ n, n ≤ fuel →
    digitsVal (Nat.toDigitsCore 10 fuel n []) = n := by
  induction fuel with
  | zero =>
    intro n hn
    have : n = 0 := Nat.le_zero.mp hn
    subst this
    rfl
  | succ fuel ih =>
    intro n hn
    simp only [Nat.toDigitsCore]
    by_cases h : n / 10 = 0
    · have hlt : n < 10 := (Nat.div_eq_zero_iff (by decide)).mp h
      have : ([] ++ [Nat.digitChar (n % 10)] : List Char) = [Nat.digitChar (n % 10)] := rfl
      rw [if_pos h, ← this, digitsVal_append_singleton,
        digitVal_digitChar _ (Nat.mod_lt _ (by decide))]
      simp [digitsVal, Nat.mod_eq_of_lt hlt]
    · have hpos : 0 < n := by
        rcases Nat.eq_zero_or_pos n with h0 | h0
        · exact absurd (by simp [h0]) h
        · exact h0
      have hdiv : n / 10 < n := Nat.div_lt_self hpos (by decide)
      rw [if_neg h, toDigitsCore_append, digitsVal_append_singleton,
        ih (n / 10) (by omega), digitVal_digitChar _ (Nat.mod_lt _ (by decide))]
      exact Nat.div_add_mod n 10

/-- Decimal rendering is injective. -/
theorem repr_injective {m n : Nat} (h : Nat.repr m = Nat.repr n) : m = n := by
  have hd : Nat.toDigitsCore 10 (m + 1) m [] = Nat.toDigitsCore 10 (n + 1) n [] := by
    have := congrArg String.data h
    simpa [Nat.repr, Nat.toDigits, List.asString] using this
  calc m = digitsVal (Nat.toDigitsCore 10 (m + 1) m []) :=
        (toDigitsCore_val (m + 1) m (by omega)).symm
    _ = digitsVal (Nat.toDigitsCore 10 (n + 1) n []) := by rw [hd]
    _ = n := toDigitsCore_val (n + 1) n (by omega)

/-- Splitting a char list at a dash that occurs in neither left part is
unambiguous. -/
theorem append_dash_inj : ∀ (l₁ : List Char) {r₁ : List Char} (l₂ : List Char) {r₂ : List Char},
    l₁ ++ '-' :: r₁ = l₂ ++ '-' :: r₂ → '-' ∉ l₁ → '-' ∉ l₂ → l₁ = l₂ ∧ r₁ = r₂ := by
  intro l₁
  induction l₁ with
  | nil =>
    intro r₁ l₂ r₂ h h₁ h₂
    cases l₂ with
    | nil => simpa using h
    | cons y ys =>
      simp only [List.nil_append, List.cons_append, List.cons.injEq] at h
      exact absurd (by simp [← h.1]) h₂
  | cons x xs ih =>
    intro r₁ l₂ r₂ h h₁ h₂
    cases l₂ with
    | nil =>
      simp only [List.nil_append, List.cons_append, List.cons.injEq] at h
      exact absurd (by simp [h.1]) h₁
    | cons y ys =>
      simp only [List.cons_append, List.cons.injEq] at h
      have hxs : xs ++ '-' :: r₁ = ys ++ '-' :: r₂ := h.2
      have hr := ih ys hxs (fun hm => h₁ (by simp [hm])) (fun hm => h₂ (by simp [hm]))
      exact ⟨by simp [h.1, hr.1], hr.2⟩

end ReprLemmas

/-- The code generator of `src/lib/ticketGenerator.ts`:
`` `TICKET-${Date.now()}-${Math.random().toString(36).substring(2, 15)}` ``.
`now` is the millisecond clock reading and `suffix` the base-36 fractional
rendering of the `Math.random()` draw (characters `0-9a-z`, never a dash). -/
def generateUniqueCode (now : Nat) (suffix : String) : String :=
  "TICKET-" ++ Nat.repr now ++ "-" ++ suffix

/-- One batch of `n` codes, drawn from the stream of
(`Date.now()` reading, random suffix) pairs observed by successive calls. -/
def generateCodes (draws : Nat → Nat × String) (n : Nat) : List String :=
  (List.range n).map (fun i => generateUniqueCode (draws i).1 (draws i).2)

/-- Codes built from distinct draws are distinct (the suffixes contain no
dash, which holds of every base-36 fractional rendering). -/
theorem generateUniqueCode_inj {t₁ t₂ : Nat} {s₁ s₂ : String}
    (h₁ : '-' ∉ s₁.data) (h₂ : '-' ∉ s₂.data)
    (h : generateUniqueCode t₁ s₁ = generateUniqueCode t₂ s₂) :
    t₁ = t₂ ∧ s₁ = s₂ := by
  have hd := congrArg String.data h
  simp only [generateUniqueCode, String.data_append] at hd
  simp only [List.append_assoc] at hd
  have hd'' := List.append_cancel_left hd
  have hd' : (Nat.repr t₁).data ++ '-' :: s₁.data = (Nat.repr t₂).data ++ '-' :: s₂.data := by
    simpa only [List.singleton_append] using hd''
  have hsplit := append_dash_inj (Nat.repr t₁).data (Nat.repr t₂).data hd'
    (repr_no_dash t₁) (repr_no_dash t₂)
  have ht : t₁ = t₂ := by
    apply repr_injective
    cases hr₁ : Nat.repr t₁ with
    | mk d₁ =>
      cases hr₂ : Nat.repr t₂ with
      | mk d₂ =>
        have : d₁ = d₂ := by
          have e₁ := congrArg String.data hr₁
          have e₂ := congrArg String.data hr₂
          simp only at e₁ e₂
          rw [← e₁, ← e₂]
          exact hsplit.1
        rw [this]
  have hs : s₁ = s₂ := by
    cases s₁ with
    | mk d₁ =>
      cases s₂ with
      | mk d₂ =>
        exact congrArg String.mk (by simpa using hsplit.2)
  exact ⟨ht, hs⟩

/-- Counterexample to claim C7 as stated: a batch whose two calls observe the
same millisecond clock reading and the same random suffix (possible, though
astronomically unlikely for the random part) produces two equal codes, so a
batch of N ≤ 500 codes is not unconditionally pairwise distinct. -/
theorem generateCodes_can_collide :
    (generateCodes (fun _ => (1700000000000, "k7m2p")) 2).length = 2 ∧
    ¬ (generateCodes (fun _ => (1700000000000, "k7m2p")) 2).Nodup := by
  decide

/--
Claim C7, amended.  Every generated code is the fixed literal prefix
`TICKET-` followed by the decimal rendering of the millisecond clock reading
and a dash-separated random alphanumeric suffix, and a batch of N ≤ 500 codes
is pairwise distinct provided no two of its draws coincide in both clock
reading and suffix; coinciding draws (same millisecond, same random value)
yield equal codes, so unconditional distinctness does not hold.
-/
theorem generateCodes_distinct_of_distinct_draws
    (draws : Nat → Nat × String) (n : Nat) (hn : n ≤ 500)
    (hdash : ∀ i, i < n → '-' ∉ ((draws i).2).data)
    (hinj : ∀ i j, i < n → j < n → draws i = draws j → i = j) :
    (generateCodes draws n).length = n ∧
    generateCodes draws n =
      (List.range n).map (fun i => "TICKET-" ++ Nat.repr (draws i).1 ++ "-" ++ (draws i).2) ∧
    (generateCodes draws n).Nodup := by
  refine ⟨by simp [generateCodes], rfl, ?_⟩
  apply List.Nodup.map_on ?_ (List.nodup_range n)
  intro i hi j hj hcode
  rw [List.mem_range] at hi hj
  have hsplit := generateUniqueCode_inj (hdash i hi) (hdash j hj) hcode
  exact hinj i j hi hj (Prod.ext hsplit.1 hsplit.2)

/-- Witness for `generateCodes_distinct_of_distinct_draws`: three draws with
distinct clock readings yield three pairwise-distinct codes. -/
theorem generateCodes_distinct_witness :
    (generateCodes (fun i => (1000 + i, "ab")) 3).Nodup :=
  (generateCodes_distinct_of_distinct_draws (fun i => (1000 + i, "ab")) 3
    (by omega)
    (fun i hi => (by decide : '-' ∉ ("ab" : String).data))
    (fun i j hi hj h => by
      have := congrArg Prod.fst h
      simp only at this
      omega)).2.2

/-- A row of the `tickets` table as created by a generation batch: the insert
supplies `event_id`, `qr_code` and `ticket_number`; the migration defaults
fill `is_used = false` and `used_at = null`. -/
structure NewTicket where
  event_id : Nat
  qr_code : String
  ticket_number : Nat
  is_used : Bool
  used_at : Option Nat
deriving DecidableEq, Repr

/-- The row assembled by one unit's insert. -/
def batchRow (eventId : Nat) (code : String) (num : Nat) : NewTicket :=
  { event_id := eventId, qr_code := code, ticket_number := num,
    is_used := false, used_at := none }

/-- The `tickets` insert of the generation loop: the unique index on
`qr_code` rejects a duplicate code, which the loop surfaces as an error that
aborts the rest of the batch. -/
def insertTicket (ts : List NewTicket) (eventId : Nat) (code : String) (num : Nat) :
    Except Unit (List NewTicket) :=
  if ts.any (fun t => t.qr_code == code) then Except.error ()
  else Except.ok (ts ++ [batchRow eventId code num])

/-- Does a four-character tail match the case-insensitive regex `\.png$`? -/
def isPngSuffix : List Char → Bool
  | ['.', p, n, g] =>
    (p == 'p' || p == 'P') && (n == 'n' || n == 'N') && (g == 'g' || g == 'G')
  | _ => false

/-- The filename actually saved by `downloadTicketAsImage`
(`filename.replace(/\.png$/i, '.pdf')` followed by `pdf.save`). -/
def savedPdfName (filename : String) : String :=
  let cs := filename.data
  if 4 ≤ cs.length && isPngSuffix (cs.drop (cs.length - 4)) then
    String.mk (cs.take (cs.length - 4) ++ ['.', 'p', 'd', 'f'])
  else filename

/-- A name already ending in `.pdf` is saved unchanged. -/
theorem savedPdfName_of_pdf (x : String) : savedPdfName (x ++ ".pdf") = x ++ ".pdf" := by
  unfold savedPdfName
  have hd : (x ++ ".pdf").data = x.data ++ ['.', 'p', 'd', 'f'] := by
    rw [String.data_append]
  have hlen : (x.data ++ ['.', 'p', 'd', 'f']).length - 4 = x.data.length := by simp
  simp only [hd, hlen, List.drop_left]
  simp [isPngSuffix]

/-- The per-unit loop of `generateTickets` in the generator component
(part_003 lines 172–224): for `i = 1 .. quantity`, draw a fresh code, insert
the row, and export the rendered unit under the name `tick${i}.pdf`; an insert
error aborts the remainder of the batch.  `k` counts the remaining units, `i`
is the current unit index, `ts` the ticket rows so far and `fs` the filenames
saved so far. -/
def generateTicketsLoop (eventId : Nat) (draws : Nat → Nat × String) :
    Nat → Nat → List NewTicket → List String → Except Unit (List NewTicket × List String)
  | 0, _, ts, fs => Except.ok (ts, fs)
  | Nat.succ k, i, ts, fs =>
    match insertTicket ts eventId (generateUniqueCode (draws i).1 (draws i).2) i with
    | Except.error e => Except.error e
    | Except.ok ts' =>
      generateTicketsLoop eventId draws k (i + 1) ts'
        (fs ++ [savedPdfName ("tick" ++ Nat.repr i ++ ".pdf")])

/-- A full generation run for a freshly inserted event against the store
`ts`. -/
def generateTickets (eventId : Nat) (draws : Nat → Nat × String) (quantity : Nat)
    (ts : List NewTicket) : Except Unit (List NewTicket × List String) :=
  generateTicketsLoop eventId draws quantity 1 ts []

/-- Peeling the first element off a shifted range of naturals. -/
theorem range_succ_shift (k i : Nat) :
    (List.range (k + 1)).map (fun j => j + i) = i :: (List.range k).map (fun j => j + (i + 1)) := by
  rw [List.range_succ_eq_map]
  simp only [List.map_cons, List.map_map, Nat.zero_add]
  refine congrArg _ (List.map_congr_left ?_)
  intro a ha
  simp only [Function.comp_apply]
  omega

/-- Peeling the first element off a mapped shifted range. -/
theorem range_succ_shift_map {α : Type} (g : Nat → α) (k i : Nat) :
    (List.range (k + 1)).map (fun j => g (j + i)) =
      g i :: (List.range k).map (fun j => g (j + (i + 1))) := by
  rw [List.range_succ_eq_map]
  simp only [List.map_cons, List.map_map, Nat.zero_add]
  refine congrArg _ (List.map_congr_left ?_)
  intro a ha
  simp only [Function.comp_apply]
  congr 1
  omega

/-- Structure of a successful run of the generation loop. -/
theorem generateTicketsLoop_ok (eventId : Nat) (draws : Nat → Nat × String) :
    ∀ (k i : Nat) (ts : List NewTicket) (fs : List String)
      (ts' : List NewTicket) (fs' : List String),
    generateTicketsLoop eventId draws k i ts fs = Except.ok (ts', fs') →
    ∃ newRows : List NewTicket,
      ts' = ts ++ newRows ∧
      newRows.map NewTicket.ticket_number = (List.range k).map (fun j => j + i) ∧
      (∀ t ∈ newRows, t.event_id = eventId ∧ t.is_used = false ∧ t.used_at = none) ∧
      (newRows.map NewTicket.qr_code).Nodup ∧
      (∀ c ∈ newRows.map NewTicket.qr_code, ∀ t ∈ ts, t.qr_code ≠ c) ∧
      fs' = fs ++ (List.range k).map (fun j => savedPdfName ("tick" ++ Nat.repr (j + i) ++ ".pdf")) := by
  intro k
  induction k with
  | zero =>
    intro i ts fs ts' fs' h
    simp only [generateTicketsLoop, Except.ok.injEq, Prod.mk.injEq] at h
    exact ⟨[], by simp [← h.1], by simp, by simp, by simp, by simp, by simp [← h.2]⟩
  | succ k ih =>
    intro i ts fs ts' fs' h
    simp only [generateTicketsLoop] at h
    cases hins : insertTicket ts eventId (generateUniqueCode (draws i).1 (draws i).2) i with
    | error e => rw [hins] at h; exact absurd h (by simp)
    | ok tsr =>
      rw [hins] at h
      simp only at h
      -- the insert guard: no existing row carries the fresh code
      have hguard : (ts.any fun t => t.qr_code == generateUniqueCode (draws i).1 (draws i).2) = false := by
        cases hany : (ts.any fun t => t.qr_code == generateUniqueCode (draws i).1 (draws i).2) with
        | false => rfl
        | true =>
          unfold insertTicket at hins
          rw [hany] at hins
          simp at hins
      have htsr : tsr = ts ++ [batchRow eventId (generateUniqueCode (draws i).1 (draws i).2) i] := by
        unfold insertTicket at hins
        rw [hguard] at hins
        simpa using hins.symm
      obtain ⟨rows, hts', hnums, hprops, hnd, hdisj, hfs'⟩ := ih (i + 1) tsr _ ts' fs' h
      refine ⟨batchRow eventId (generateUniqueCode (draws i).1 (draws i).2) i :: rows,
          ?_, ?_, ?_, ?_, ?_, ?_⟩
      · rw [hts', htsr]
        simp
      · rw [List.map_cons, hnums, range_succ_shift]
        rfl
      · intro t ht
        rcases List.mem_cons.mp ht with ht | ht
        · subst ht; exact ⟨rfl, rfl, rfl⟩
        · exact hprops t ht
      · rw [List.map_cons]
        refine List.nodup_cons.mpr ⟨?_, hnd⟩
        intro hmem
        exact hdisj _ hmem _ (by rw [htsr]; simp) rfl
      · intro c hc t ht
        rw [List.map_cons] at hc
        rcases List.mem_cons.mp hc with hc' | hc'
        · subst hc'
          intro he
          have hfalse := List.any_eq_false.mp hguard t ht
          rw [he] at hfalse
          simp [batchRow] at hfalse
        · exact hdisj c hc' t (by rw [htsr]; simp [ht])
      · rw [hfs',
          range_succ_shift_map (fun m => savedPdfName ("tick" ++ Nat.repr m ++ ".pdf")) k i]
        simp

/--
Claim C5.  A generation run of quantity `n` that completes successfully adds
exactly `n` ticket rows to the store, all for the new event, with
`ticket_number` exactly `1..n` contiguous in generation order, pairwise
distinct `qr_code` values, `is_used` initially false (and `used_at` null),
and saves one PDF per unit whose filename `tick{i}.pdf` encodes that unit's
index.
-/
theorem generateTickets_batch (eventId : Nat) (draws : Nat → Nat × String) (n : Nat)
    (ts₀ ts : List NewTicket) (fs : List String)
    (hok : generateTickets eventId draws n ts₀ = Except.ok (ts, fs)) :
    ∃ newRows : List NewTicket,
      ts = ts₀ ++ newRows ∧
      newRows.length = n ∧
      newRows.map NewTicket.ticket_number = (List.range n).map (fun j => j + 1) ∧
      (∀ t ∈ newRows, t.event_id = eventId ∧ t.is_used = false ∧ t.used_at = none) ∧
      (newRows.map NewTicket.qr_code).Nodup ∧
      fs = (List.range n).map (fun j => "tick" ++ Nat.repr (j + 1) ++ ".pdf") := by
  obtain ⟨rows, hts, hnums, hprops, hnd, -, hfs⟩ :=
    generateTicketsLoop_ok eventId draws n 1 ts₀ [] ts fs hok
  refine ⟨rows, hts, ?_, hnums, hprops, hnd, ?_⟩
  · have := congrArg List.length hnums
    simpa using this
  · rw [hfs]
    simp only [List.nil_append]
    apply List.map_congr_left
    intro a ha
    exact savedPdfName_of_pdf ("tick" ++ Nat.repr (a + 1))

/-- Witness for `generateTickets_batch`: a concrete run of two units against
an empty store. -/
theorem generateTickets_batch_witness :
    ∃ newRows : List NewTicket,
      [{ event_id := 7, qr_code := "TICKET-1-s", ticket_number := 1,
         is_used := false, used_at := none },
       { event_id := 7, qr_code := "TICKET-2-s", ticket_number := 2,
         is_used := false, used_at := none }] = ([] : List NewTicket) ++ newRows ∧
      newRows.length = 2 ∧
      newRows.map NewTicket.ticket_number = (List.range 2).map (fun j => j + 1) ∧
      (∀ t ∈ newRows, t.event_id = 7 ∧ t.is_used = false ∧ t.used_at = none) ∧
      (newRows.map NewTicket.qr_code).Nodup ∧
      ["tick1.pdf", "tick2.pdf"] =
        (List.range 2).map (fun j => "tick" ++ Nat.repr (j + 1) ++ ".pdf") :=
  generateTickets_batch 7 (fun i => (i, "s")) 2 []
    [{ event_id := 7, qr_code := "TICKET-1-s", ticket_number := 1,
       is_used := false, used_at := none },
     { event_id := 7, qr_code := "TICKET-2-s", ticket_number := 2,
       is_used := false, used_at := none }]
    ["tick1.pdf", "tick2.pdf"] rfl

/-- Canvas orientation (`TicketOrientation` in `ticketGenerator.ts`). -/
inductive TicketOrientation where
  | landscape
  | portrait
deriving DecidableEq, Repr

/-- Main-axis position of the QR block (`TicketQRPosition`). -/
inductive TicketQRPosition where
  | start
  | «end»
deriving DecidableEq, Repr

/-- QR pixel-size tier (`TicketQRSize`). -/
inductive TicketQRSize where
  | small
  | medium
  | large
deriving DecidableEq, Repr

/-- Corner style of the white QR card (`qrBorderStyle`); `noBorder` models
the source literal `'none'`. -/
inductive QRBorderStyle where
  | noBorder
  | rounded
  | square
deriving DecidableEq, Repr

/-- The `TicketDesignOptions` interface of `ticketGenerator.ts` (lines 9–20):
every field optional, and `showTicketNumber` the only visibility toggle it
declares. -/
structure TicketDesignOptions where
  backgroundColor : Option String := Option.none
  textColor : Option String := Option.none
  accentColor : Option String := Option.none
  qrSize : Option TicketQRSize := Option.none
  logoImage : Option String := Option.none
  titleFontSize : Option Nat := Option.none
  subtitleFontSize : Option Nat := Option.none
  overlayOpacity : Option Rat := Option.none
  showTicketNumber : Option Bool := Option.none
  qrBorderStyle : Option QRBorderStyle := Option.none
deriving DecidableEq, Repr

/-- A DOM element as assembled by `createTicketElement`: tag name, inline
styles in assignment order, optional `textContent`, optional image `src`,
children in append order. -/
inductive Elem where
  | mk (tag : String) (styles : List (String × String)) (text : Option String)
       (src : Option String) (children : List Elem)
deriving Repr

mutual

/-- All `textContent` strings of an element tree, in document order. -/
def Elem.texts : Elem → List String
  | Elem.mk _ _ txt _ children => txt.toList ++ textsList children

/-- Text collection over a child list. -/
def textsList : List Elem → List String
  | [] => []
  | e :: es => e.texts ++ textsList es

end

/-- A DOM exception raised while building the tree.  With a `logoImage`, the
source calls `leftSection.insertBefore(logoEl, titleEl)` before `titleEl` has
been appended to `leftSection`, so the reference node is not a child and the
DOM raises `NotFoundError`. -/
inductive DomError where
  | notFoundError
deriving DecidableEq, Repr

/-- The ticket layout engine `createTicketElement` of `ticketGenerator.ts`
(lines 47–230), producing the styled element tree.  Styles are recorded as
(property, value) pairs in the source's assignment order; conditional values
mirror the source's ternaries. -/
def createTicketElement (title subtitle : String) (ticketNumber : Nat) (eventDate : String)
    (qrCodeDataUrl : String) (backgroundImage : Option String := Option.none)
    (orientation : TicketOrientation := TicketOrientation.landscape)
    (qrPosition : TicketQRPosition := TicketQRPosition.«end»)
    (designOptions : TicketDesignOptions := {}) : Except DomError Elem :=
  let backgroundColor := designOptions.backgroundColor.getD "#667eea"
  let textColor := designOptions.textColor.getD "#ffffff"
  let accentColor := designOptions.accentColor.getD "#ffffff"
  let qrSize := designOptions.qrSize.getD TicketQRSize.medium
  let logoImage := designOptions.logoImage
  let overlayOpacity := designOptions.overlayOpacity.getD
    (if backgroundImage.isSome then (0.55 : Rat) else 0)
  let showTicketNumber := designOptions.showTicketNumber.getD true
  let qrBorderStyle := designOptions.qrBorderStyle.getD QRBorderStyle.rounded
  let isPortrait := decide (orientation = TicketOrientation.portrait)
  let isQrAtStart := decide (qrPosition = TicketQRPosition.start)
  let overlay : Elem := Elem.mk "div"
    [("position", "absolute"), ("top", "0"), ("left", "0"), ("right", "0"), ("bottom", "0"),
     ("background", "rgba(0, 0, 0, " ++ toString overlayOpacity ++ ")"),
     ("borderRadius", "24px")]
    Option.none Option.none []
  let titleEl : Elem := Elem.mk "h1"
    [("fontSize", match designOptions.titleFontSize with
        | some v => Nat.repr v ++ "px"
        | Option.none => if isPortrait then "34px" else "32px"),
     ("fontWeight", "800"), ("margin", "0"), ("letterSpacing", "1px"),
     ("textShadow", "0 6px 16px rgba(0,0,0,0.45)"), ("color", textColor)]
    (some title) Option.none []
  let subtitleEl : Elem := Elem.mk "p"
    [("fontSize", match designOptions.subtitleFontSize with
        | some v => Nat.repr v ++ "px"
        | Option.none => "18px"),
     ("margin", "0"), ("opacity", "0.9"), ("maxWidth", "90%"), ("color", textColor)]
    (some subtitle) Option.none []
  let dateEl : Elem := Elem.mk "div"
    [("fontSize", "18px"), ("fontWeight", "600"), ("display", "inline-flex"),
     ("alignItems", "center"), ("gap", "8px"), ("padding", "8px 16px"),
     ("borderRadius", "16px"), ("background", "rgba(0,0,0,0.35)"),
     ("border", "1px solid rgba(255,255,255,0.2)"), ("color", textColor)]
    (some eventDate) Option.none []
  let ticketNumberEl : Elem := Elem.mk "div"
    [("fontSize", "22px"), ("fontWeight", "700"), ("display", "inline-flex"),
     ("alignItems", "center"), ("gap", "8px"), ("padding", "10px 18px"),
     ("borderRadius", "999px"), ("background", "rgba(255,255,255,0.15)"),
     ("border", "1px solid rgba(255,255,255,0.2)"),
     ("boxShadow", "0 10px 25px rgba(0,0,0,0.25)"), ("color", textColor)]
    (some ("Entrada #" ++ Nat.repr ticketNumber)) Option.none []
  let leftSection : Elem := Elem.mk "div"
    [("flex", if isPortrait then "0 0 auto" else "1"), ("display", "flex"),
     ("flexDirection", "column"), ("justifyContent", "space-between"),
     ("height", if isPortrait then "auto" else "100%"),
     ("textAlign", if isPortrait then "center" else "left"),
     ("alignItems", if isPortrait then "center" else "flex-start"), ("gap", "12px")]
    Option.none Option.none
    ([titleEl, subtitleEl, dateEl] ++ if showTicketNumber then [ticketNumberEl] else [])
  let qrWidth := match qrSize, isPortrait with
    | TicketQRSize.small, true => "160px"
    | TicketQRSize.small, false => "130px"
    | TicketQRSize.medium, true => "220px"
    | TicketQRSize.medium, false => "170px"
    | TicketQRSize.large, true => "280px"
    | TicketQRSize.large, false => "220px"
  let qrImg : Elem := Elem.mk "img"
    [("width", qrWidth), ("height", qrWidth), ("display", "block")]
    Option.none (some qrCodeDataUrl) []
  let qrContainer : Elem := Elem.mk "div"
    [("background", "white"), ("padding", if isPortrait then "20px" else "15px"),
     ("borderRadius", match qrBorderStyle with
        | QRBorderStyle.square => "0"
        | QRBorderStyle.rounded => "18px"
        | QRBorderStyle.noBorder => "0"),
     ("boxShadow", "0 20px 35px rgba(15,23,42,0.45)"),
     ("margin", if isPortrait then (if isQrAtStart then "0 auto auto" else "auto auto 0") else "0")]
    Option.none Option.none [qrImg]
  let rightSection : Elem := Elem.mk "div"
    [("display", "flex"), ("alignItems", "center"), ("justifyContent", "center"),
     ("padding", if isPortrait then (if isQrAtStart then "0 0 12px 0" else "12px 0 0 0")
        else (if isQrAtStart then "20px 30px 20px 0" else "20px 0 20px 30px")),
     ("flex", if isPortrait then "1" else "0 0 auto"),
     ("alignSelf", if isPortrait then "stretch" else "center")]
    Option.none Option.none [qrContainer]
  let content : Elem := Elem.mk "div"
    [("position", "relative"), ("zIndex", "1"), ("display", "flex"),
     ("flexDirection", if isPortrait then "column" else "row"),
     ("justifyContent", if isPortrait then "flex-start" else "space-between"),
     ("alignItems", if isPortrait then "stretch" else "center"),
     ("height", "100%"), ("gap", if isPortrait then "24px" else "16px")]
    Option.none Option.none
    (if qrPosition = TicketQRPosition.start then [rightSection, leftSection]
     else [leftSection, rightSection])
  let container : Elem := Elem.mk "div"
    [("width", if isPortrait then "420px" else "600px"),
     ("height", if isPortrait then "720px" else "320px"),
     ("position", "relative"),
     ("background", match backgroundImage with
        | some img => "url(" ++ img ++ ") center/cover"
        | Option.none =>
          "linear-gradient(135deg, " ++ backgroundColor ++ " 0%, " ++ accentColor ++ " 100%)"),
     ("borderRadius", "24px"), ("padding", if isPortrait then "28px" else "30px"),
     ("color", textColor), ("fontFamily", "Poppins, Arial, sans-serif"),
     ("boxShadow", "0 20px 45px rgba(15,23,42,0.4)"), ("overflow", "hidden")]
    Option.none Option.none [overlay, content]
  if logoImage.isSome then Except.error DomError.notFoundError
  else Except.ok container

/-- The argument tuple of one layout call (the spec's `layoutTicket`
signature). -/
structure LayoutArgs where
  title : String
  subtitle : String
  ticketNumber : Nat
  eventDate : String
  qrCodeDataUrl : String
  backgroundImage : Option String
  orientation : TicketOrientation
  qrPosition : TicketQRPosition
  designOptions : TicketDesignOptions
deriving DecidableEq, Repr

/-- One layout call on a bundled argument tuple. -/
def layoutTicket (a : LayoutArgs) : Except DomError Elem :=
  createTicketElement a.title a.subtitle a.ticketNumber a.eventDate a.qrCodeDataUrl
    a.backgroundImage a.orientation a.qrPosition a.designOptions

/--
Claim C6.  The layout engine is deterministic: two calls with identical
arguments produce identical element trees (same elements, same computed
dimension and color styles).  The embedding exhibits `createTicketElement` as
a pure function of its nine arguments alone — it takes no clock reading and
no randomness — so equal inputs give equal outputs.
-/
theorem layoutTicket_deterministic (a₁ a₂ : LayoutArgs) (h : a₁ = a₂) :
    layoutTicket a₁ = layoutTicket a₂ := by
  rw [h]

/-- Concrete argument tuple for the determinism witness. -/
def demoArgs : LayoutArgs :=
  { title := "Romeo y Julieta", subtitle := "Una tragedia", ticketNumber := 1,
    eventDate := "1 de diciembre de 2025, 20:00",
    qrCodeDataUrl := "data:image/png;base64,QR",
    backgroundImage := Option.none, orientation := TicketOrientation.landscape,
    qrPosition := TicketQRPosition.«end», designOptions := {} }

/-- Witness for `layoutTicket_deterministic` at a concrete argument tuple. -/
theorem layoutTicket_deterministic_witness :
    layoutTicket demoArgs = layoutTicket demoArgs :=
  layoutTicket_deterministic demoArgs demoArgs rfl

/-- The design-options object assembled by the generator component
(part_001, lines 135–149 and 316–329): besides the fields of the
`TicketDesignOptions` interface it carries the three visibility toggles
`showEventDate`, `showEventTitle` and `showEventDescription` offered by the
component's UI.  At run time the extra properties simply sit on the object;
the destructuring in `createTicketElement` never reads them. -/
structure FullDesignOptions where
  backgroundColor : String
  accentColor : String
  textColor : String
  qrSize : TicketQRSize
  titleFontSize : Option Nat
  subtitleFontSize : Option Nat
  overlayOpacity : Rat
  showTicketNumber : Bool
  showEventDate : Bool
  showEventTitle : Bool
  showEventDescription : Bool
  qrBorderStyle : QRBorderStyle
deriving DecidableEq, Repr

/-- What `createTicketElement`'s destructuring actually consumes of the
generator's options object: the declared fields; the three event-visibility
toggles are dropped. -/
def FullDesignOptions.passed (o : FullDesignOptions) : TicketDesignOptions :=
  { backgroundColor := some o.backgroundColor, accentColor := some o.accentColor,
    textColor := some o.textColor, qrSize := some o.qrSize,
    logoImage := Option.none,
    titleFontSize := o.titleFontSize, subtitleFontSize := o.subtitleFontSize,
    overlayOpacity := some o.overlayOpacity, showTicketNumber := some o.showTicketNumber,
    qrBorderStyle := some o.qrBorderStyle }

/-- The generator's options with the three event-visibility toggles disabled
and the ticket-number toggle enabled. -/
def eventTogglesOff : FullDesignOptions :=
  { backgroundColor := "#667eea", accentColor := "#764ba2", textColor := "#ffffff",
    qrSize := TicketQRSize.medium, titleFontSize := Option.none,
    subtitleFontSize := Option.none, overlayOpacity := 0, showTicketNumber := true,
    showEventDate := false, showEventTitle := false, showEventDescription := false,
    qrBorderStyle := QRBorderStyle.rounded }

/-- The options `eventTogglesOff` with the ticket-number toggle also disabled. -/
def allTogglesOff : FullDesignOptions :=
  { eventTogglesOff with showTicketNumber := false }

/--
Claim C4, the code at the failing input.  With `showEventTitle`,
`showEventDescription` and `showEventDate` all disabled, the produced tree
still contains the title, the description and the date texts — the layout
engine's `TicketDesignOptions` does not declare those toggles and its
destructuring ignores them — while disabling `showTicketNumber` (the one
toggle the engine does accept) removes exactly the ticket-number badge.
-/
theorem createTicketElement_ignores_event_toggles :
    Except.map Elem.texts
      (createTicketElement "Romeo y Julieta" "Una tragedia" 1 "1 dic 2025" "qr.png"
        Option.none TicketOrientation.landscape TicketQRPosition.«end»
        eventTogglesOff.passed) =
      Except.ok ["Romeo y Julieta", "Una tragedia", "1 dic 2025", "Entrada #1"] ∧
    Except.map Elem.texts
      (createTicketElement "Romeo y Julieta" "Una tragedia" 1 "1 dic 2025" "qr.png"
        Option.none TicketOrientation.landscape TicketQRPosition.«end»
        allTogglesOff.passed) =
      Except.ok ["Romeo y Julieta", "Una tragedia", "1 dic 2025"] := by
  exact ⟨rfl, rfl⟩

/-- Preferred physical camera (`facingMode` parameter). -/
inductive Facing where
  | environment
  | user
deriving DecidableEq, Repr

/-- One constraint object passed to `getUserMedia` by `requestCameraStream`:
an exact `deviceId`, an `exact`, `ideal` or loose `facingMode`, or the bare
`{ video: true }`. -/
inductive Constraint where
  | deviceId (id : String)
  | facingExact (f : Facing)
  | facingIdeal (f : Facing)
  | facingLoose (f : Facing)
  | videoTrue
deriving DecidableEq, Repr

/-- A `MediaDeviceInfo` entry of `enumerateDevices`. -/
structure MediaDevice where
  kind : String
  label : String
  deviceId : String
deriving DecidableEq, Repr

/-- An error thrown by a browser API, carrying its (possibly absent, possibly
empty) `message`. -/
structure CamError where
  message : Option String
deriving DecidableEq, Repr

/-- Does `needle` occur as a substring of `hay`? -/
def containsSub (hay needle : String) : Bool :=
  (List.range (hay.data.length + 1)).any (fun k => needle.data.isPrefixOf (hay.data.drop k))

/-- The label regex of `getPreferredDeviceConstraint`:
`/back|rear|environment/i` for the environment camera and `/front|user|face/i`
for the user camera, modelled by case-insensitive substring tests. -/
def labelTest (facing : Facing) (label : String) : Bool :=
  match facing with
  | Facing.environment =>
    containsSub label.toLower "back" || containsSub label.toLower "rear" ||
      containsSub label.toLower "environment"
  | Facing.user =>
    containsSub label.toLower "front" || containsSub label.toLower "user" ||
      containsSub label.toLower "face"

/-- The browser camera environment seen by one acquisition attempt sequence:
whether `getUserMedia` exists, the (deterministic, per-constraint) result of
each `getUserMedia` call — a stream handle or an error — and the
`enumerateDevices` capability and result. -/
structure CameraEnv where
  gumAvailable : Bool
  getUserMedia : Constraint → Except CamError Nat
  enumerateAvailable : Bool
  enumerateDevices : Except CamError (List MediaDevice)

/-- The helper `getPreferredDeviceConstraint` of `qrScanner.ts` (lines 115–143): absent
or failing `enumerateDevices` yields no constraint; otherwise the first video
input whose label matches the facing regex — or, failing that, the first
video input — is requested by `deviceId`. -/
def getPreferredDeviceConstraint (env : CameraEnv) (facing : Facing) : Option Constraint :=
  if ¬env.enumerateAvailable then Option.none
  else match env.enumerateDevices with
    | Except.error _ => Option.none
    | Except.ok devices =>
      let videoInputs := devices.filter (fun d => d.kind == "videoinput")
      match videoInputs with
      | [] => Option.none
      | d₀ :: _ =>
        some (Constraint.deviceId
          (((videoInputs.find? (fun d => labelTest facing d.label)).getD d₀).deviceId))

/-- The three facing-mode constraint objects pushed after the device attempt,
in source order: exact, ideal, loose. -/
def facingConstraints (facing : Facing) : List Constraint :=
  match facing with
  | Facing.environment =>
    [Constraint.facingExact Facing.environment, Constraint.facingIdeal Facing.environment,
     Constraint.facingLoose Facing.environment]
  | Facing.user =>
    [Constraint.facingExact Facing.user, Constraint.facingIdeal Facing.user,
     Constraint.facingLoose Facing.user]

/-- The full attempt list of `requestCameraStream`: the preferred-device
constraint when available, the three facing constraints, then `{video:true}`. -/
def constraintAttempts (env : CameraEnv) (facing : Facing) : List Constraint :=
  (getPreferredDeviceConstraint env facing).toList ++ facingConstraints facing ++
    [Constraint.videoTrue]

/-- Is an attempt's result an error? -/
def isErr {ε α : Type} : Except ε α → Bool
  | Except.error _ => true
  | Except.ok _ => false

/-- The attempt loop of `requestCameraStream` (lines 88–99): try each
constraint in order, remembering the last error; the first success returns
its stream, and when every attempt failed the last error is thrown
(`lastError ?? new Error(...)`). -/
def tryAttempts (gum : Constraint → Except CamError Nat) :
    List Constraint → Option CamError → Except CamError Nat
  | [], last => Except.error (last.getD { message := some "No se pudo acceder a la cámara." })
  | c :: rest, last =>
    match gum c with
    | Except.ok s => Except.ok s
    | Except.error e => tryAttempts gum rest (some e)

/-- The acquisition cascade `requestCameraStream` of `qrScanner.ts` (lines 49–100).  The warm-up
`getUserMedia({video:true})` issued when permission is in the prompt state
only unblocks `enumerateDevices` and its result is discarded, so it does not
appear in the result. -/
def requestCameraStream (env : CameraEnv) (shouldWarmUp : Bool) (facing : Facing) :
    Except CamError Nat :=
  if ¬env.gumAvailable then
    Except.error { message := some "La API de la cámara no está disponible en este dispositivo." }
  else tryAttempts env.getUserMedia (constraintAttempts env facing) Option.none

/-- A first success at position `i` (everything before it failing) is what
the attempt loop returns, whatever error it has accumulated. -/
theorem tryAttempts_first_ok (gum : Constraint → Except CamError Nat) :
    ∀ (l : List Constraint) (last : Option CamError) (i : Nat) (hi : i < l.length),
    (∀ j (hj : j < i), isErr (gum (l.get ⟨j, Nat.lt_trans hj hi⟩)) = true) →
    ∀ s, gum (l.get ⟨i, hi⟩) = Except.ok s →
    tryAttempts gum l last = Except.ok s := by
  intro l
  induction l with
  | nil => intro last i hi; exact absurd hi (by simp)
  | cons c rest ih =>
    intro last i hi hprev s hs
    cases i with
    | zero =>
      simp only [List.get] at hs
      simp [tryAttempts, hs]
    | succ i' =>
      have hc : isErr (gum c) = true := by
        have := hprev 0 (Nat.succ_pos i')
        simpa using this
      cases hgc : gum c with
      | ok s' => rw [hgc] at hc; simp [isErr] at hc
      | error e =>
        simp only [tryAttempts, hgc]
        exact ih (some e) i' (by simpa using hi)
          (fun j hj => by
            have := hprev (j + 1) (by omega)
            simpa using this)
          s (by simpa using hs)

/-- When every attempt fails, the loop surfaces the error of the last
attempt. -/
theorem tryAttempts_all_fail (gum : Constraint → Except CamError Nat) :
    ∀ (l : List Constraint) (c : Constraint) (last : Option CamError),
    (∀ x ∈ l, isErr (gum x) = true) →
    ∀ e, gum c = Except.error e →
    tryAttempts gum (l ++ [c]) last = Except.error e := by
  intro l
  induction l with
  | nil =>
    intro c last hall e he
    simp [tryAttempts, he]
  | cons x xs ih =>
    intro c last hall e he
    have hx : isErr (gum x) = true := hall x (by simp)
    cases hgx : gum x with
    | ok s => rw [hgx] at hx; simp [isErr] at hx
    | error ex =>
      simp only [List.cons_append, tryAttempts, hgx]
      exact ih c (some ex) (fun y hy => hall y (by simp [hy])) e he

/--
Claim C8.  Camera acquisition tries, in order: the exact preferred-device
constraint (when device enumeration is available and yields a video input),
then the exact, ideal and loose facing constraints, then any camera; it
returns the stream of the first attempt that succeeds, swallowing every
earlier failure, and only when all attempts fail does it raise the error of
the last attempt.
-/
theorem requestCameraStream_cascade (env : CameraEnv) (w : Bool) (facing : Facing)
    (hapi : env.gumAvailable = true) :
    constraintAttempts env facing =
      (getPreferredDeviceConstraint env facing).toList ++
        [Constraint.facingExact facing, Constraint.facingIdeal facing,
         Constraint.facingLoose facing, Constraint.videoTrue] ∧
    (∀ i (hi : i < (constraintAttempts env facing).length),
      (∀ j (hj : j < i),
        isErr (env.getUserMedia ((constraintAttempts env facing).get
          ⟨j, Nat.lt_trans hj hi⟩)) = true) →
      ∀ s, env.getUserMedia ((constraintAttempts env facing).get ⟨i, hi⟩) = Except.ok s →
      requestCameraStream env w facing = Except.ok s) ∧
    ((∀ c ∈ constraintAttempts env facing, isErr (env.getUserMedia c) = true) →
      ∀ e, env.getUserMedia Constraint.videoTrue = Except.error e →
      requestCameraStream env w facing = Except.error e) := by
  have hattempts : constraintAttempts env facing =
      (getPreferredDeviceConstraint env facing).toList ++
        [Constraint.facingExact facing, Constraint.facingIdeal facing,
         Constraint.facingLoose facing, Constraint.videoTrue] := by
    unfold constraintAttempts facingConstraints
    cases facing <;> simp
  have hreq : requestCameraStream env w facing =
      tryAttempts env.getUserMedia (constraintAttempts env facing) Option.none := by
    unfold requestCameraStream
    rw [hapi]
    simp
  refine ⟨hattempts, ?_, ?_⟩
  · intro i hi hprev s hs
    rw [hreq]
    exact tryAttempts_first_ok env.getUserMedia (constraintAttempts env facing)
      Option.none i hi hprev s hs
  · intro hall e he
    rw [hreq]
    have hsplit : constraintAttempts env facing =
        ((getPreferredDeviceConstraint env facing).toList ++
          [Constraint.facingExact facing, Constraint.facingIdeal facing,
           Constraint.facingLoose facing]) ++ [Constraint.videoTrue] := by
      rw [hattempts]
      simp
    rw [hsplit]
    refine tryAttempts_all_fail env.getUserMedia _ Constraint.videoTrue Option.none ?_ e he
    intro x hx
    refine hall x ?_
    rw [hsplit]
    exact List.mem_append_left _ hx

/-- Environment for the cascade witness: enumeration unavailable, the exact
facing attempt fails, the ideal facing attempt yields stream 5. -/
def demoCamEnv : CameraEnv :=
  { gumAvailable := true,
    getUserMedia := fun c =>
      match c with
      | Constraint.facingExact _ => Except.error { message := some "OverconstrainedError" }
      | Constraint.facingIdeal _ => Except.ok 5
      | _ => Except.error { message := some "NotReadableError" },
    enumerateAvailable := false,
    enumerateDevices := Except.error { message := Option.none } }

/-- Witness for `requestCameraStream_cascade`: with the exact attempt failing
and the ideal attempt succeeding, acquisition returns the ideal attempt's
stream. -/
theorem requestCameraStream_cascade_witness :
    requestCameraStream demoCamEnv true Facing.environment = Except.ok 5 := by
  refine (requestCameraStream_cascade demoCamEnv true Facing.environment rfl).2.1
    1 (by decide) ?_ 5 rfl
  intro j hj
  interval_cases j
  rfl

/-- The result of `checkCameraPermission` (lines 102–113): a missing
`navigator.permissions.query` or a rejected query collapses to
`unsupported`; otherwise the browser's state is returned. -/
inductive PermissionState where
  | granted
  | denied
  | prompt
  | unsupported
deriving DecidableEq, Repr

/-- The browser environment seen by one `startScanning` call: the permission
query capability and result, the secure-context flag, the camera environment
of the acquisition cascade, and the result of `video.play()`. -/
structure ScannerEnv where
  permissionsAvailable : Bool
  permissionsQuery : Except CamError PermissionState
  secureContext : Bool
  camera : CameraEnv
  playResult : Except CamError Unit

/-- The permission probe `checkCameraPermission` of `qrScanner.ts`. -/
def checkCameraPermission (env : ScannerEnv) : PermissionState :=
  if ¬env.permissionsAvailable then PermissionState.unsupported
  else match env.permissionsQuery with
    | Except.error _ => PermissionState.unsupported
    | Except.ok s => s

/-- The mutable fields of a `QRScanner` instance relevant to session state:
the `scanning` flag driving the sampling loop and the held stream. -/
structure ScannerState where
  scanning : Bool
  stream : Option Nat
deriving DecidableEq, Repr

/-- Observable outcome of one `startScanning` call: the messages handed to
`onError` (in order) and whether the sampling loop was entered. -/
structure StartResult where
  errorCalls : List String
  loopStarted : Bool
deriving DecidableEq, Repr

/-- The fallback of the catch in `startScanning`. -/
def fallbackMessage : String :=
  "No se pudo acceder a la cámara. Por favor, verifica los permisos y vuelve a intentarlo."

/-- The message handed to `onError`: `error?.message || <fallback>` — an
absent or empty message falls back to the generic one. -/
def errMessage (e : CamError) : String :=
  match e.message with
  | some m => if m == "" then fallbackMessage else m
  | Option.none => fallbackMessage

/-- The error thrown on an explicitly denied camera permission. -/
def permissionDeniedMessage : String :=
  "El permiso de cámara está bloqueado. Ve a los ajustes del navegador y permite el acceso a la cámara para este sitio."

/-- The error thrown outside a secure context. -/
def insecureContextMessage : String :=
  "La cámara sólo se puede usar en conexiones seguras (HTTPS o localhost)."

/-- The session entry point `startScanning` of `qrScanner.ts` (lines 10–47): fail fast on a denied
permission or an insecure context; acquire a stream through the cascade
(warming up when the permission state is `prompt`); attach and play it; on
success set the `scanning` flag and enter the sampling loop.  Every throw
lands in the catch, which calls `onError` once and returns normally.  On a
`play` failure the stream has already been stored; earlier failures leave the
state untouched. -/
def startScanning (env : ScannerEnv) (facing : Facing) (st : ScannerState) :
    StartResult × ScannerState :=
  if checkCameraPermission env = PermissionState.denied then
    ({ errorCalls := [errMessage { message := some permissionDeniedMessage }],
       loopStarted := false }, st)
  else if ¬env.secureContext then
    ({ errorCalls := [errMessage { message := some insecureContextMessage }],
       loopStarted := false }, st)
  else
    match requestCameraStream env.camera
        (decide (checkCameraPermission env = PermissionState.prompt)) facing with
    | Except.error e => ({ errorCalls := [errMessage e], loopStarted := false }, st)
    | Except.ok s =>
      match env.playResult with
      | Except.error e =>
        ({ errorCalls := [errMessage e], loopStarted := false },
         { st with stream := some s })
      | Except.ok _ =>
        ({ errorCalls := [], loopStarted := true }, { scanning := true, stream := some s })

/-- The messages handed to `onError` are never empty. -/
theorem errMessage_ne_empty (e : CamError) : errMessage e ≠ "" := by
  unfold errMessage
  cases hm : e.message with
  | none => decide
  | some m =>
    show (if (m == "") = true then fallbackMessage else m) ≠ ""
    by_cases hme : (m == "") = true
    · rw [if_pos hme]
      decide
    · rw [if_neg hme]
      intro hc
      exact hme (by rw [hc]; rfl)

/-- The failure conditions of a `startScanning` call: denied permission,
insecure context, exhausted acquisition cascade, or a failing `play`. -/
def startFails (env : ScannerEnv) (facing : Facing) : Prop :=
  checkCameraPermission env = PermissionState.denied ∨
  env.secureContext = false ∨
  isErr (requestCameraStream env.camera
    (decide (checkCameraPermission env = PermissionState.prompt)) facing) = true ∨
  isErr env.playResult = true

/--
Claim C10.  `startScanning` never throws to its caller (the embedding is a
total function returning normally); on every failure path — permission
denied, insecure context, camera API unavailable or all acquisition attempts
exhausted, or a failure attaching/playing the stream — it invokes `onError`
exactly once with a non-empty message, leaves the `scanning` flag false
(starting from a non-scanning instance), and never enters the sampling loop.
-/
theorem startScanning_failure_behavior (env : ScannerEnv) (facing : Facing)
    (st : ScannerState) (h0 : st.scanning = false) (hfail : startFails env facing) :
    ((startScanning env facing st).1).errorCalls.length = 1 ∧
    (∀ m ∈ ((startScanning env facing st).1).errorCalls, m ≠ "") ∧
    ((startScanning env facing st).2).scanning = false ∧
    ((startScanning env facing st).1).loopStarted = false := by
  by_cases h1 : checkCameraPermission env = PermissionState.denied
  · unfold startScanning
    rw [if_pos h1]
    refine ⟨rfl, ?_, h0, rfl⟩
    intro m hm
    rw [List.mem_singleton] at hm
    subst hm
    exact errMessage_ne_empty _
  · by_cases h2 : env.secureContext = true
    · cases hr : requestCameraStream env.camera
          (decide (checkCameraPermission env = PermissionState.prompt)) facing with
      | error e =>
        unfold startScanning
        rw [if_neg h1, if_neg (not_not_intro h2)]
        simp only [hr]
        refine ⟨rfl, ?_, h0, by trivial⟩
        intro m hm
        rw [List.mem_singleton] at hm
        subst hm
        exact errMessage_ne_empty _
      | ok s =>
        cases hp : env.playResult with
        | error e =>
          unfold startScanning
          rw [if_neg h1, if_neg (not_not_intro h2)]
          simp only [hr, hp]
          refine ⟨rfl, ?_, h0, by trivial⟩
          intro m hm
          rw [List.mem_singleton] at hm
          subst hm
          exact errMessage_ne_empty _
        | ok u =>
          exfalso
          rcases hfail with hf | hf | hf | hf
          · exact h1 hf
          · rw [h2] at hf
            exact Bool.noConfusion hf
          · rw [hr] at hf
            simp [isErr] at hf
          · rw [hp] at hf
            simp [isErr] at hf
    · unfold startScanning
      rw [if_neg h1, if_pos h2]
      refine ⟨rfl, ?_, h0, rfl⟩
      intro m hm
      rw [List.mem_singleton] at hm
      subst hm
      exact errMessage_ne_empty _

/-- Environment for the start-failure witness: the permission query resolves
to denied. -/
def demoScannerEnv : ScannerEnv :=
  { permissionsAvailable := true, permissionsQuery := Except.ok PermissionState.denied,
    secureContext := true, camera := demoCamEnv, playResult := Except.ok () }

/-- Witness for `startScanning_failure_behavior`: a denied permission yields
one non-empty error call, no loop, and a non-scanning state. -/
theorem startScanning_failure_witness :
    ((startScanning demoScannerEnv Facing.environment
        { scanning := false, stream := Option.none }).1).errorCalls.length = 1 ∧
    (∀ m ∈ ((startScanning demoScannerEnv Facing.environment
        { scanning := false, stream := Option.none }).1).errorCalls, m ≠ "") ∧
    ((startScanning demoScannerEnv Facing.environment
        { scanning := false, stream := Option.none }).2).scanning = false ∧
    ((startScanning demoScannerEnv Facing.environment
        { scanning := false, stream := Option.none }).1).loopStarted = false :=
  startScanning_failure_behavior demoScannerEnv Facing.environment
    { scanning := false, stream := Option.none } rfl (Or.inl rfl)

end TickGen
